import Mathlib

/-!
Verification of the creative-evaluation backend (FastAPI service under
`backend/`, Streamlit chat app under `FineTunedLLM/`).

Python text values are modelled as `List Char` (one entry per code point, so
`len` is `List.length`); byte strings as `List (Fin 256)`; the floating-point
score arithmetic is modelled exactly over `ℚ` (every constant in the source is
a small decimal literal) with Python `round(x, 2)` modelled as round-half-to-
even on the second decimal.  All functions are total Lean functions; fallible
endpoint code returns `Except`.
-/

/-! ## Shared string primitives -/

/-- Model of Python `str.lower()` (the ASCII case mapping; every keyword this
codebase matches against is ASCII). -/
def toLowerPy (s : List Char) : List Char := s.map Char.toLower

/-- Model of the Python substring test `needle in hay`. -/
def isSubstr (needle hay : List Char) : Bool :=
  hay.tails.any (fun t => needle.isPrefixOf t)

/-- Characters stripped by Python `str.strip()`. -/
def isPySpace (c : Char) : Bool := c.isWhitespace

/-- Model of Python `str.strip()`: drop whitespace from both ends. -/
def pyStrip (s : List Char) : List Char :=
  ((s.dropWhile isPySpace).reverse.dropWhile isPySpace).reverse

/-! ## Python `round(x, 2)`

Python `round` rounds half to even.  `roundHalfEven q` is the nearest integer
to `q`, ties to the even integer. -/

/-- Round a rational to the nearest integer, ties to even (Python `round`). -/
def roundHalfEven (q : ℚ) : ℤ :=
  if q - ⌊q⌋ < 1/2 then ⌊q⌋
  else if (1:ℚ)/2 < q - ⌊q⌋ then ⌊q⌋ + 1
  else if ⌊q⌋ % 2 = 0 then ⌊q⌋ else ⌊q⌋ + 1

/-- Model of Python `round(q, 2)`. -/
def pyRound2 (q : ℚ) : ℚ := (roundHalfEven (q * 100) : ℚ) / 100

/-! ## Result data model

Both agents return a dict `{agent_used, summary, score, details}`; the two
agents use different detail keys, modelled as the two constructors of
`AgentDetails`. -/

/-- Detail payload of an agent result (`details` dict in the source). -/
inductive AgentDetails where
  | script (verdict risks benefits : String) (content_length : Nat)
      (evaluation_notes : String)
  | impact (impact_level concerns recommendations : String)
      (detected_topics : List String) (evaluation_notes : String)
  deriving DecidableEq

/-- The `impact_level` entry of an impact-agent detail payload. -/
def AgentDetails.impactLevel : AgentDetails → String
  | .script _ _ _ _ _ => ""
  | .impact il _ _ _ _ => il

/-- Evaluation result dict returned by either agent. -/
structure AgentResult where
  agent_used : String
  summary : String
  score : ℚ
  details : AgentDetails
  deriving DecidableEq

/-! ## Script Reviewer agent (`backend/agents/script_reviewer.py`) -/

/-- Fixed positive keyword list of `evaluate_script`. -/
def positive_keywords : List (List Char) :=
  ["creative".data, "innovative".data, "compelling".data, "engaging".data,
   "unique".data]

/-- Fixed negative keyword list of `evaluate_script`. -/
def negative_keywords : List (List Char) :=
  ["generic".data, "boring".data, "unclear".data, "confusing".data]

/-- Model of `positive_count = sum(1 for kw in positive_keywords if kw.lower()
in content.lower())`. -/
def scriptPositiveCount (content : List Char) : Nat :=
  (positive_keywords.filter
    (fun kw => isSubstr (toLowerPy kw) (toLowerPy content))).length

/-- Model of `negative_count` in `evaluate_script`. -/
def scriptNegativeCount (content : List Char) : Nat :=
  (negative_keywords.filter
    (fun kw => isSubstr (toLowerPy kw) (toLowerPy content))).length

/-- Model of `base_score = min(0.5 + (content_length / 2000) * 0.3, 0.95)`. -/
def script_base_score (content_length : Nat) : ℚ :=
  min (1/2 + ((content_length : ℚ) / 2000) * (3/10)) (19/20)

/-- Score returned by `evaluate_script`:
`round(max(0.1, min(0.95, base_score + positive_count * 0.05 -
negative_count * 0.1)), 2)`. -/
def script_final_score (content : List Char) : ℚ :=
  let score_adjustment : ℚ :=
    (scriptPositiveCount content : ℚ) * (5/100)
      - (scriptNegativeCount content : ℚ) * (1/10)
  pyRound2 (max (1/10)
    (min (19/20) (script_base_score content.length + score_adjustment)))

/-- Model of `evaluate_script` (`backend/agents/script_reviewer.py`).  The
`prompt` and `rubric_text` parameters are accepted and unused, exactly as in
the source. -/
def evaluate_script (content : List Char) (prompt : Option (List Char))
    (rubric_text : Option (List Char)) : AgentResult :=
  let content_length := content.length
  let final_score := script_final_score content
  let vrb : String × String × String :=
    if 7/10 ≤ final_score then
      ("Good fit",
       "Minor concerns about pacing in the middle section.",
       "Strong narrative structure with compelling character development.")
    else if 1/2 ≤ final_score then
      ("Needs revision",
       "Some structural issues and unclear character motivations.",
       "Solid concept with potential for improvement.")
    else
      ("Requires significant work",
       "Multiple structural and narrative issues identified.",
       "Core idea has potential but needs substantial development.")
  { agent_used := "script_reviewer"
    summary := "Script evaluation completed. Content length: "
      ++ toString content_length ++ " characters. Overall assessment: "
      ++ vrb.1.toLower ++ "."
    score := final_score
    details := .script vrb.1 vrb.2.1 vrb.2.2 content_length
      ("This is a mock evaluation. In production, this would include detailed "
        ++ "analysis from an AI agent.") }

/-! ## Impact agent (`backend/agents/impact_agent.py`) -/

/-- The fixed `sensitive_topics` dict, in insertion order. -/
def sensitive_topics : List (String × List (List Char)) :=
  [("violence",
    ["violence".data, "violent".data, "fight".data, "attack".data, "war".data]),
   ("discrimination",
    ["discrimination".data, "prejudice".data, "bias".data, "stereotype".data]),
   ("sensitive_content",
    ["trauma".data, "abuse".data, "harassment".data, "exploitation".data])]

/-- Categories of `sensitive_topics` with some keyword occurring in the
(lowercased) content: the `detected_topics` list of `evaluate_impact`. -/
def detected_topics (content_lower : List Char) : List String :=
  (sensitive_topics.filter
    (fun tk => tk.2.any (fun kw => isSubstr kw content_lower))).map
    (fun tk => tk.1)

/-- Fixed `positive_indicators` list of `evaluate_impact`. -/
def positive_indicators : List (List Char) :=
  ["diversity".data, "inclusion".data, "empowerment".data,
   "representation".data, "awareness".data]

/-- Model of `positive_count = sum(1 for ind in positive_indicators if ind in
content_lower)`. -/
def impactPositiveCount (content_lower : List Char) : Nat :=
  (positive_indicators.filter (fun ind => isSubstr ind content_lower)).length

/-- Score returned by `evaluate_impact`: base `0.7`, `max(0.2, base - 0.2 *
len(detected_topics))` when topics were detected, then `min(0.95, base +
positive_count * 0.05)`, then `round(_, 2)`. -/
def impact_final_score (content : List Char) : ℚ :=
  let content_lower := toLowerPy content
  let t := (detected_topics content_lower).length
  let base_score : ℚ := 7/10
  let base_score :=
    if t ≠ 0 then max (1/5) (base_score + (-(1/5)) * (t : ℚ)) else base_score
  let base_score :=
    min (19/20) (base_score + (impactPositiveCount content_lower : ℚ) * (1/20))
  pyRound2 base_score

/-- Model of `evaluate_impact` (`backend/agents/impact_agent.py`).  The
`prompt` and `rubric_text` parameters are accepted and unused, exactly as in
the source. -/
def evaluate_impact (content : List Char) (prompt : Option (List Char))
    (rubric_text : Option (List Char)) : AgentResult :=
  let content_lower := toLowerPy content
  let dts := detected_topics content_lower
  let final_score := impact_final_score content
  let icr : String × String × String :=
    if 7/10 ≤ final_score then
      ("Positive",
       "Minimal concerns. Content appears to handle sensitive topics thoughtfully.",
       "Continue current approach. Consider adding trigger warnings if needed.")
    else if 1/2 ≤ final_score then
      ("Mixed",
       "Some sensitive content detected. Review for potential unintended harm.",
       "Consider sensitivity review and potential content warnings.")
    else
      ("Needs Review",
       "Multiple sensitive topics identified. Requires careful evaluation.",
       "Strongly recommend sensitivity review and content modification.")
  { agent_used := "impact_agent"
    summary := "Impact evaluation completed. Detected "
      ++ toString dts.length ++ " sensitive topic categories. Impact level: "
      ++ icr.1.toLower ++ "."
    score := final_score
    details := .impact icr.1 icr.2.1 icr.2.2
      (if dts.isEmpty then ["None detected"] else dts)
      ("This is a mock evaluation. In production, this would include detailed "
        ++ "impact analysis from an AI agent.") }

/-! ## Orchestrator (`backend/orchestrator.py`) -/

/-- The fixed `impact_keywords` list of `route`. -/
def impact_keywords : List (List Char) :=
  ["impact".data, "sensitivity".data, "sensitive".data, "social".data,
   "cultural".data, "representation".data, "diversity".data, "inclusion".data,
   "harmful".data, "offensive".data, "appropriate".data, "suitable".data,
   "concerns".data, "risks".data, "ethical".data]

/-- Model of `is_impact_query = any(keyword in prompt_lower for keyword in
impact_keywords)` where `prompt_lower = (prompt or "").lower()`. -/
def is_impact_query (prompt : Option (List Char)) : Bool :=
  let prompt_lower := toLowerPy (prompt.getD [])
  impact_keywords.any (fun kw => isSubstr kw prompt_lower)

/-- Model of `route` (`backend/orchestrator.py`): dispatch on the prompt
keywords, forwarding all three arguments to the chosen agent. -/
def route (content_text : List Char) (prompt : Option (List Char))
    (rubric_text : Option (List Char)) : AgentResult :=
  if is_impact_query prompt then evaluate_impact content_text prompt rubric_text
  else evaluate_script content_text prompt rubric_text

/-! ## Text extraction (`backend/main.py`)

Uploaded file bodies are byte strings, modelled as `List (Fin 256)`.
`extract_text_from_txt` first attempts a strict UTF-8 decode (Python
`bytes.decode("utf-8")`, which raises on any invalid sequence) and falls back
to latin-1 (each byte becomes the code point of the same value). -/

/-- Test for a UTF-8 continuation byte (`0x80..0xBF`). -/
def isContByte (b : Fin 256) : Bool :=
  decide (0x80 ≤ b.val) && decide (b.val < 0xC0)

/-- Strict UTF-8 decoding of a byte string: `none` on any invalid, overlong,
surrogate or truncated sequence, exactly the inputs on which Python
`bytes.decode("utf-8")` raises `UnicodeDecodeError`. -/
def utf8Decode : List (Fin 256) → Option (List Char)
  | [] => some []
  | b1 :: rest =>
    if b1.val < 0x80 then
      (utf8Decode rest).map (fun cs => Char.ofNat b1.val :: cs)
    else if b1.val < 0xC2 then none
    else if b1.val < 0xE0 then
      match rest with
      | b2 :: rest2 =>
        if isContByte b2 then
          (utf8Decode rest2).map (fun cs =>
            Char.ofNat ((b1.val - 0xC0) * 0x40 + (b2.val - 0x80)) :: cs)
        else none
      | [] => none
    else if b1.val < 0xF0 then
      match rest with
      | b2 :: b3 :: rest3 =>
        if (if b1.val = 0xE0 then decide (0xA0 ≤ b2.val) && decide (b2.val < 0xC0)
            else if b1.val = 0xED then decide (0x80 ≤ b2.val) && decide (b2.val < 0xA0)
            else isContByte b2) && isContByte b3 then
          (utf8Decode rest3).map (fun cs =>
            Char.ofNat ((b1.val - 0xE0) * 0x1000 + (b2.val - 0x80) * 0x40
              + (b3.val - 0x80)) :: cs)
        else none
      | _ => none
    else if b1.val < 0xF5 then
      match rest with
      | b2 :: b3 :: b4 :: rest4 =>
        if (if b1.val = 0xF0 then decide (0x90 ≤ b2.val) && decide (b2.val < 0xC0)
            else if b1.val = 0xF4 then decide (0x80 ≤ b2.val) && decide (b2.val < 0x90)
            else isContByte b2) && isContByte b3 && isContByte b4 then
          (utf8Decode rest4).map (fun cs =>
            Char.ofNat ((b1.val - 0xF0) * 0x40000 + (b2.val - 0x80) * 0x1000
              + (b3.val - 0x80) * 0x40 + (b4.val - 0x80)) :: cs)
        else none
      | _ => none
    else none

/-- Latin-1 decoding: every byte maps to the code point of the same value.
Total on arbitrary byte strings. -/
def latin1Decode (bs : List (Fin 256)) : List Char :=
  bs.map (fun b => Char.ofNat b.val)

/-- Model of `extract_text_from_txt` (`backend/main.py`): try UTF-8, fall back
to latin-1 on `UnicodeDecodeError`. -/
def extract_text_from_txt (bs : List (Fin 256)) : List Char :=
  match utf8Decode bs with
  | some s => s
  | none => latin1Decode bs

/-! ## The `/query` endpoint (`backend/main.py`)

`extract_text_from_pdf` wraps the external PyPDF2 library, so the endpoint is
parametrised over a `PdfExtract` function (`.error e` models the extraction
raising, which the source converts to a 400 `HTTPException`).  The endpoint is
also parametrised over the router it forwards to; the source instantiates it
with `route`, and the parametrisation lets theorems state which inputs reach
the router. -/

/-- Model of a raised FastAPI `HTTPException` (status code and detail). -/
structure QueryError where
  status : Nat
  detail : List Char
  deriving DecidableEq

/-- An uploaded file: optional filename plus raw bytes. -/
structure UploadFile where
  filename : Option (List Char)
  content : List (Fin 256)
  deriving DecidableEq

/-- External PDF text extraction (PyPDF2), abstracted; `.error` carries the
stringified exception. -/
def PdfExtract := List (Fin 256) → Except (List Char) (List Char)

/-- The routing function the endpoint forwards to. -/
def Router := List Char → Option (List Char) → Option (List Char) → AgentResult

/-- Model of Python `str.split(".")` (single-character separator): the
maximal dot-free segments, including empty ones, so the result is never
empty. -/
def splitOnDot : List Char → List (List Char)
  | [] => [[]]
  | c :: rest =>
    let r := splitOnDot rest
    if c = '.' then [] :: r
    else
      match r with
      | h :: t => (c :: h) :: t
      | [] => [[c]]

/-- Model of `file_extension = filename.split(".")[-1].lower() if filename
else ""` (an absent or empty filename yields the empty extension). -/
def file_extension (filename : Option (List Char)) : List Char :=
  match filename with
  | some n => toLowerPy ((splitOnDot n).getLastD [])
  | none => []

/-- The `DEFAULT_RUBRIC` constant of `backend/main.py`. -/
def DEFAULT_RUBRIC : List Char :=
  ("SaiL merges arts, technology, and social impact to unite and inspire humanity through entertaining and transformative storytelling.\n\nIn an era characterized by a fragmented and often polarizing media landscape, the studio operates on a central, guiding principle: the cultivation of Actionable Hope. This goes beyond passive inspiration and focuses on empowering audiences with clarity and motivation to create change.\n\nEach project functions as the epicenter of a potential movement. Stories are developed alongside strategies for real-world engagement—such as partnerships, community resources, or platforms for dialogue—transforming audiences from passive viewers into active participants.\n\nEvaluation Questions:\n- Does the story have a positive message?\n- Does the story uplift and inspire?\n- Does the story align with the Heroine\x27s Journey?\n- Does the story address a critical problem worth solving?\n- Is there potential for measurable impact?\n- Is the story commercially viable? (not a deciding factor alone)\n- Do the author(s) align with the studio\x27s mission?").data

/-- The contribution of `text_input` to the content parts: the stripped text
when truthy (`if text_input: content_parts.append(text_input.strip())`),
nothing otherwise. -/
def text_input_parts (text_input : Option (List Char)) : List (List Char) :=
  match text_input with
  | some ti => if ti ≠ [] then [pyStrip ti] else []
  | none => []

/-- Model of the script-content collection loop of `query_endpoint`
(`backend/main.py` lines 110-134): the stripped `text_input` when truthy,
then the text extracted from `script_file` (PDF or TXT by extension, any
other extension raising a 400). -/
def content_parts (pdfExtract : PdfExtract) (text_input : Option (List Char))
    (script_file : Option UploadFile) : Except QueryError (List (List Char)) :=
  let parts := text_input_parts text_input
  match script_file with
  | none => .ok parts
  | some f =>
    let ext := file_extension f.filename
    if ext = "pdf".data then
      match pdfExtract f.content with
      | .ok extracted => .ok (parts ++ [extracted])
      | .error e => .error ⟨400, "Error reading PDF: ".data ++ e⟩
    else if ext = "txt".data then
      .ok (parts ++ [extract_text_from_txt f.content])
    else
      .error ⟨400, "Unsupported file type: ".data ++ ext
        ++ ". Only PDF and TXT are supported.".data⟩

/-- The assembled `content_text = "\n\n".join(content_parts)`. -/
def assembled_content (pdfExtract : PdfExtract) (text_input : Option (List Char))
    (script_file : Option UploadFile) : Except QueryError (List Char) :=
  match content_parts pdfExtract text_input script_file with
  | .ok parts => .ok (List.intercalate "\n\n".data parts)
  | .error e => .error e

/-- Model of the rubric-resolution block of `query_endpoint`: the default
rubric unless a `rubric_file` is uploaded, which is extracted under the same
extension rule as the script file (with the rubric-specific 400 detail). -/
def resolve_rubric (pdfExtract : PdfExtract) (rubric_file : Option UploadFile) :
    Except QueryError (List Char) :=
  match rubric_file with
  | none => .ok DEFAULT_RUBRIC
  | some f =>
    let ext := file_extension f.filename
    if ext = "pdf".data then
      match pdfExtract f.content with
      | .ok t => .ok t
      | .error e => .error ⟨400, "Error reading PDF: ".data ++ e⟩
    else if ext = "txt".data then
      .ok (extract_text_from_txt f.content)
    else
      .error ⟨400, "Unsupported rubric file type: ".data ++ ext
        ++ ". Only PDF and TXT are supported.".data⟩

/-- Model of `query_endpoint` (`backend/main.py`): collect script content,
fail 400 when it strips to empty, resolve the rubric, then forward
`(content_text, prompt, rubric_text)` to the router. -/
def query_endpoint (pdfExtract : PdfExtract) (router : Router)
    (text_input prompt : Option (List Char))
    (script_file rubric_file : Option UploadFile) :
    Except QueryError AgentResult :=
  match content_parts pdfExtract text_input script_file with
  | .error e => .error e
  | .ok parts =>
    let content_text := List.intercalate "\n\n".data parts
    if pyStrip content_text = [] then
      .error ⟨400, "No script content provided. Please provide text_input or upload a script_file.".data⟩
    else
      match resolve_rubric pdfExtract rubric_file with
      | .error e => .error e
      | .ok rubric_text => .ok (router content_text prompt (some rubric_text))

/-! ## Dummy-backend streaming (`FineTunedLLM/app.py`)

When no model is loaded, `stream_generate` returns a character iterator over
`"Echo: " + messages[-1]["content"]` together with `None` in place of the
background generation thread used by the real backends.  The iterator is
modelled as the list of its single-character fragments. -/

/-- A chat message (`{"role": ..., "content": ...}`). -/
structure ChatMessage where
  role : String
  content : List Char
  deriving DecidableEq

/-- Model of the dummy-mode branch of `stream_generate`
(`FineTunedLLM/app.py`): the fragment sequence (one fragment per character of
`"Echo: " + messages[-1]["content"]`) paired with the absent background
thread.  Python indexing `messages[-1]` raises on an empty list; the model
uses the last element with a dummy default, and theorems restrict to
non-empty message lists. -/
def stream_generate_dummy (messages : List ChatMessage) :
    List (List Char) × Option Unit :=
  let text := (messages.getLastD ⟨"", []⟩).content
  (("Echo: ".data ++ text).map (fun c => [c]), none)

/-! ## Helper lemmas -/

lemma roundHalfEven_intCast (n : ℤ) : roundHalfEven (n : ℚ) = n := by
  unfold roundHalfEven
  rw [Int.floor_intCast]
  norm_num

lemma floor_le_roundHalfEven (q : ℚ) : ⌊q⌋ ≤ roundHalfEven q := by
  unfold roundHalfEven
  split_ifs <;> omega

lemma roundHalfEven_le_floor_add_one (q : ℚ) : roundHalfEven q ≤ ⌊q⌋ + 1 := by
  unfold roundHalfEven
  split_ifs <;> omega

lemma roundHalfEven_mono {a b : ℚ} (h : a ≤ b) : roundHalfEven a ≤ roundHalfEven b := by
  have hf : ⌊a⌋ ≤ ⌊b⌋ := Int.floor_le_floor h
  rcases eq_or_lt_of_le hf with heq | hlt
  · unfold roundHalfEven
    rw [← heq]
    split_ifs <;> first | omega | linarith
  · have h1 := roundHalfEven_le_floor_add_one a
    have h2 := floor_le_roundHalfEven b
    omega

lemma pyRound2_mono {a b : ℚ} (h : a ≤ b) : pyRound2 a ≤ pyRound2 b := by
  unfold pyRound2
  have h1 : a * 100 ≤ b * 100 := by linarith
  have h2 := roundHalfEven_mono h1
  have h3 : ((roundHalfEven (a * 100) : ℤ) : ℚ) ≤ ((roundHalfEven (b * 100) : ℤ) : ℚ) := by
    exact_mod_cast h2
  linarith

lemma pyRound2_eq_self {q : ℚ} (n : ℤ) (h : q * 100 = (n : ℚ)) : pyRound2 q = q := by
  unfold pyRound2
  rw [h, roundHalfEven_intCast]
  linarith

lemma char_toNat_ofNat (n : Nat) (h : n.isValidChar) : (Char.ofNat n).toNat = n := by
  simp only [Char.ofNat, h, Char.ofNatAux, Char.toNat, dif_pos]
  exact BitVec.toNat_ofNatLt _ _

lemma flatten_map_singleton (l : List Char) : (l.map (fun c => [c])).flatten = l := by
  induction l with
  | nil => rfl
  | cons a t ih => simp [ih]

lemma all_singleton_map (l : List Char) :
    (l.map (fun c => ([c] : List Char))).all (fun f => f.length == 1) = true := by
  induction l with
  | nil => rfl
  | cons a t ih => simp [ih]

lemma route_agent_used (c : List Char) (p r : Option (List Char)) :
    (route c p r).agent_used
      = if is_impact_query p then "impact_agent" else "script_reviewer" := by
  unfold route
  by_cases h : is_impact_query p
  · simp [h, evaluate_impact]
  · simp [h, evaluate_script]

/-! ## Claim theorems -/

/-- C1: `route` dispatches to the Impact Agent iff some keyword of the fixed
set is a substring of the lowercased prompt (an absent or empty prompt matches
nothing), and to the Script-Review Agent otherwise; the dispatch decision
depends only on the prompt text, not on content or rubric; and `route` is a
total function of its inputs (routing never errors). -/
theorem route_dispatch_spec (c c2 : List Char) (p r r2 : Option (List Char)) :
    ((route c p r).agent_used = "impact_agent"
        ↔ impact_keywords.any (fun kw => isSubstr kw (toLowerPy (p.getD []))) = true)
  ∧ ((route c p r).agent_used = "script_reviewer"
        ↔ impact_keywords.any (fun kw => isSubstr kw (toLowerPy (p.getD []))) = false)
  ∧ (route c p r).agent_used = (route c2 p r2).agent_used
  ∧ (route c none r).agent_used = "script_reviewer"
  ∧ (route c (some []) r).agent_used = "script_reviewer" := by
  have hdef : ∀ pp : Option (List Char),
      is_impact_query pp
        = impact_keywords.any (fun kw => isSubstr kw (toLowerPy (pp.getD []))) :=
    fun _ => rfl
  refine ⟨?_, ?_, ?_, ?_, ?_⟩
  · rw [route_agent_used, ← hdef]
    cases h : is_impact_query p <;> simp [h]
  · rw [route_agent_used, ← hdef]
    cases h : is_impact_query p <;> simp [h]
  · rw [route_agent_used, route_agent_used]
  · rw [route_agent_used]
    have h0 : is_impact_query (none : Option (List Char)) = false := by decide
    simp [h0]
  · rw [route_agent_used]
    have h0 : is_impact_query (some ([] : List Char)) = false := by decide
    simp [h0]

/-- C9: the entire result of either agent depends only on the content
argument; the prompt and rubric arguments have no influence on any field of
the returned result. -/
theorem agents_independent_of_prompt_and_rubric (c : List Char)
    (p1 r1 p2 r2 : Option (List Char)) :
    evaluate_script c p1 r1 = evaluate_script c p2 r2
      ∧ evaluate_impact c p1 r1 = evaluate_impact c p2 r2 :=
  ⟨rfl, rfl⟩

/-- C8: in the dummy backend, for every non-empty message list (written
`ms ++ [m]`), `stream_generate` produces a finite sequence of single-character
fragments whose concatenation is the literal `"Echo: "` followed by the last
message content, and starts no background task. -/
theorem stream_generate_dummy_spec (ms : List ChatMessage) (m : ChatMessage) :
    ((stream_generate_dummy (ms ++ [m])).1).flatten = "Echo: ".data ++ m.content
  ∧ ((stream_generate_dummy (ms ++ [m])).1).all (fun f => f.length == 1) = true
  ∧ (stream_generate_dummy (ms ++ [m])).2 = none := by
  have h : stream_generate_dummy (ms ++ [m])
      = (("Echo: ".data ++ m.content).map (fun c => [c]), none) := by
    unfold stream_generate_dummy
    rw [List.getLastD_concat]
  rw [h]
  exact ⟨flatten_map_singleton _, all_singleton_map _, rfl⟩

/-- C10: plain-text extraction is total: for every byte string it returns the
UTF-8 decoding when that succeeds, and otherwise the latin-1 fallback, which
succeeds on every byte sequence, producing one character per byte with the
code point equal to the byte value.  A txt upload can therefore never produce
an extraction error. -/
theorem extract_text_from_txt_total (bs : List (Fin 256)) :
    ∃ cs : List Char, extract_text_from_txt bs = cs
      ∧ (utf8Decode bs = some cs
         ∨ (utf8Decode bs = none ∧ cs = latin1Decode bs
            ∧ cs.length = bs.length
            ∧ cs.map Char.toNat = bs.map Fin.val)) := by
  cases h : utf8Decode bs with
  | some s =>
    refine ⟨s, ?_, Or.inl rfl⟩
    unfold extract_text_from_txt
    rw [h]
  | none =>
    refine ⟨latin1Decode bs, ?_, Or.inr ⟨rfl, rfl, ?_, ?_⟩⟩
    · unfold extract_text_from_txt
      rw [h]
    · simp [latin1Decode]
    · unfold latin1Decode
      rw [List.map_map]
      apply List.map_congr_left
      intro b hb
      have hv : (b.val : Nat).isValidChar := by
        have : b.val < 256 := b.isLt
        left
        omega
      exact char_toNat_ofNat _ hv

lemma impact_round_formula (t p : ℕ) :
    pyRound2 (min (19/20)
        ((if t ≠ 0 then max (1/5) (7/10 + (-(1/5)) * (t : ℚ)) else 7/10)
          + (p : ℚ) * (1/20)))
      = min (19/20) (max (1/5) (7/10 - (t : ℚ) * (1/5)) + (p : ℚ) * (1/20)) := by
  have hif : (if t ≠ 0 then max (1/5 : ℚ) (7/10 + (-(1/5)) * (t : ℚ)) else 7/10)
      = max (1/5) (7/10 - (t : ℚ) * (1/5)) := by
    by_cases ht : t = 0
    · subst ht
      norm_num
    · rw [if_pos ht]
      ring_nf
  rw [hif]
  refine pyRound2_eq_self (min 95 (max 20 (70 - 20 * (t : ℤ)) + 5 * (p : ℤ))) ?_
  push_cast
  rw [min_mul_of_nonneg _ _ (by norm_num : (0:ℚ) ≤ 100), add_mul,
      max_mul_of_nonneg _ _ (by norm_num : (0:ℚ) ≤ 100)]
  norm_num
  ring_nf

lemma impact_final_score_eq (c : List Char) :
    impact_final_score c
      = min (19/20)
          (max (1/5)
            (7/10 - ((detected_topics (toLowerPy c)).length : ℚ) * (1/5))
            + (impactPositiveCount (toLowerPy c) : ℚ) * (1/20)) := by
  unfold impact_final_score
  exact impact_round_formula _ _

/-- C2: for every content, the Impact Agent score equals the base 0.7
decreased by exactly 0.2 per distinct detected sensitive-topic category (of
the three fixed categories) with a floor of 0.2, then increased by exactly
0.05 per detected positive-indicator keyword with a ceiling of 0.95 (the
other inputs having no effect); and the score is bucketed into the three
tiers ≥ 0.7 Positive, ≥ 0.5 Mixed, otherwise Needs Review. -/
theorem impact_score_formula (c : List Char) (p r : Option (List Char)) :
    (evaluate_impact c p r).score
        = min (19/20)
            (max (1/5)
              (7/10 - ((detected_topics (toLowerPy c)).length : ℚ) * (1/5))
              + (impactPositiveCount (toLowerPy c) : ℚ) * (1/20))
  ∧ (evaluate_impact c p r).details.impactLevel
      = (if 7/10 ≤ (evaluate_impact c p r).score then "Positive"
         else if 1/2 ≤ (evaluate_impact c p r).score then "Mixed"
         else "Needs Review") := by
  have hsc : (evaluate_impact c p r).score = impact_final_score c := rfl
  constructor
  · rw [hsc]
    exact impact_final_score_eq c
  · rw [hsc]
    by_cases h1 : (7:ℚ)/10 ≤ impact_final_score c
    · simp [evaluate_impact, AgentDetails.impactLevel, h1]
    · simp [evaluate_impact, AgentDetails.impactLevel, h1]
      split_ifs <;> rfl

lemma script_final_score_mono {c1 c2 : List Char}
    (hp : scriptPositiveCount c1 = scriptPositiveCount c2)
    (hn : scriptNegativeCount c1 = scriptNegativeCount c2)
    (hl : c1.length ≤ c2.length) :
    script_final_score c1 ≤ script_final_score c2 := by
  unfold script_final_score
  rw [hp, hn]
  apply pyRound2_mono
  have hb : script_base_score c1.length ≤ script_base_score c2.length := by
    unfold script_base_score
    have hc : (c1.length : ℚ) ≤ (c2.length : ℚ) := Nat.cast_le.mpr hl
    exact min_le_min (by linarith) le_rfl
  exact max_le_max le_rfl (min_le_min le_rfl (by linarith [hb]))

lemma pyRound2_clamp_bounds (q : ℚ) :
    1/10 ≤ pyRound2 (max (1/10) (min (19/20) q))
      ∧ pyRound2 (max (1/10) (min (19/20) q)) ≤ 19/20 := by
  constructor
  · calc (1/10 : ℚ) = pyRound2 (1/10) := (pyRound2_eq_self 10 (by norm_num)).symm
      _ ≤ pyRound2 (max (1/10) (min (19/20) q)) := pyRound2_mono (le_max_left _ _)
  · calc pyRound2 (max (1/10) (min (19/20) q)) ≤ pyRound2 (19/20) :=
        pyRound2_mono (max_le (by norm_num) (min_le_left _ _))
      _ = 19/20 := pyRound2_eq_self 95 (by norm_num)

lemma script_final_score_bounds (c : List Char) :
    1/10 ≤ script_final_score c ∧ script_final_score c ≤ 19/20 := by
  unfold script_final_score
  exact pyRound2_clamp_bounds _

/-- C3: for any two contents with equal positive-keyword and equal
negative-keyword counts, the longer (or equally long) content receives a
Script Reviewer score at least as large (the 0.95 ceiling makes the growth
saturate, never decrease); and the final score is always clamped to
[0.1, 0.95]. -/
theorem script_score_monotone_and_clamped :
    (∀ (c1 c2 : List Char) (p r : Option (List Char)),
        scriptPositiveCount c1 = scriptPositiveCount c2 →
        scriptNegativeCount c1 = scriptNegativeCount c2 →
        c1.length ≤ c2.length →
        (evaluate_script c1 p r).score ≤ (evaluate_script c2 p r).score)
  ∧ (∀ (c : List Char) (p r : Option (List Char)),
        1/10 ≤ (evaluate_script c p r).score
          ∧ (evaluate_script c p r).score ≤ 19/20) := by
  constructor
  · intro c1 c2 p r hp hn hl
    exact script_final_score_mono hp hn hl
  · intro c p r
    exact script_final_score_bounds c

/-- Witness for C3 at the keyword-free contents "ab" and "abcd". -/
theorem script_score_monotone_witness :
    scriptPositiveCount "ab".data = scriptPositiveCount "abcd".data
  ∧ scriptNegativeCount "ab".data = scriptNegativeCount "abcd".data
  ∧ "ab".data.length ≤ "abcd".data.length
  ∧ (evaluate_script "ab".data none none).score
      ≤ (evaluate_script "abcd".data none none).score :=
  ⟨by decide, by decide, by decide,
    script_score_monotone_and_clamped.1 "ab".data "abcd".data none none
      (by decide) (by decide) (by decide)⟩

/-- C4: for every text input (the empty string, arbitrarily long and
non-ASCII content included) both agents are total functions — modelled as
total Lean functions, so they never raise — and return a score lying in
[0, 1]. -/
theorem agents_score_in_unit_interval (c : List Char) (p r : Option (List Char)) :
    (0 ≤ (evaluate_script c p r).score ∧ (evaluate_script c p r).score ≤ 1)
  ∧ (0 ≤ (evaluate_impact c p r).score ∧ (evaluate_impact c p r).score ≤ 1) := by
  constructor
  · have h := script_final_score_bounds c
    have hsc : (evaluate_script c p r).score = script_final_score c := rfl
    rw [hsc]
    exact ⟨by linarith [h.1], by linarith [h.2]⟩
  · have hsc : (evaluate_impact c p r).score = impact_final_score c := rfl
    rw [hsc, impact_final_score_eq]
    constructor
    · apply le_min (by norm_num)
      have h1 : (1/5 : ℚ)
          ≤ max (1/5) (7/10 - ((detected_topics (toLowerPy c)).length : ℚ) * (1/5)) :=
        le_max_left _ _
      have h2 : 0 ≤ (impactPositiveCount (toLowerPy c) : ℚ) * (1/20) := by positivity
      linarith
    · calc min (19/20)
            (max (1/5)
              (7/10 - ((detected_topics (toLowerPy c)).length : ℚ) * (1/5))
              + (impactPositiveCount (toLowerPy c) : ℚ) * (1/20)) ≤ 19/20 :=
          min_le_left _ _
        _ ≤ 1 := by norm_num


lemma intercalate_singleton (sep x : List Char) : List.intercalate sep [x] = x := by
  simp [List.intercalate, List.intersperse]

lemma intercalate_pair (sep a b : List Char) :
    List.intercalate sep [a, b] = a ++ sep ++ b := by
  simp [List.intercalate, List.intersperse]

/-- C5 (amended): the endpoint assembles the content passed to the Router by
concatenating, in source order, the trimmed `text_input` (included only when
non-empty) followed by the text extracted from a txt `script_file` (always
included when the file is provided, even when its extracted text is empty),
separated by a blank line; whenever that content does not strip to empty it
is exactly what the router receives. -/
theorem assembly_order_and_separator (pdfExtract : PdfExtract) (router : Router)
    (oti p : Option (List Char)) (f : UploadFile)
    (hext : file_extension f.filename = "txt".data) :
    ∃ A : List Char,
      assembled_content pdfExtract oti (some f) = .ok A
      ∧ A = (match oti with
             | some ti => if ti ≠ [] then pyStrip ti ++ "\n\n".data else []
             | none => []) ++ extract_text_from_txt f.content
      ∧ (pyStrip A ≠ [] →
          query_endpoint pdfExtract router oti p (some f) none
            = .ok (router A p (some DEFAULT_RUBRIC))) := by
  have hcp : content_parts pdfExtract oti (some f)
      = .ok (text_input_parts oti ++ [extract_text_from_txt f.content]) := by
    simp only [content_parts, hext]
    simp
  refine ⟨List.intercalate "\n\n".data
      (text_input_parts oti ++ [extract_text_from_txt f.content]), ?_, ?_, ?_⟩
  · simp only [assembled_content, hcp]
  · cases oti with
    | none => simp [text_input_parts, intercalate_singleton]
    | some ti =>
      by_cases hti : ti = []
      · subst hti
        simp [text_input_parts, intercalate_singleton]
      · have hparts : text_input_parts (some ti) = [pyStrip ti] := by
          simp [text_input_parts, hti]
        rw [hparts]
        have h2 : ([pyStrip ti] ++ [extract_text_from_txt f.content])
            = [pyStrip ti, extract_text_from_txt f.content] := rfl
        rw [h2, intercalate_pair]
        simp [hti]
  · intro hne
    simp only [query_endpoint, hcp]
    rw [if_neg hne]
    rfl

/-- C5 counterexample: with `text_input = "A"` and a provided txt script file
whose body is empty, the assembled content is `"A\n\n"`, not the
concatenation `"A"` of the non-empty sources only — the separator is emitted
for the empty extracted text as well. -/
theorem assembly_empty_file_counterexample :
    assembled_content (fun _ => .error []) (some "A".data)
        (some ⟨some "b.txt".data, []⟩) = .ok "A\n\n".data
  ∧ "A\n\n".data ≠ "A".data :=
  ⟨rfl, by decide⟩

/-- Witness for C5: `text_input = "A"` with a txt script file containing
`"B"` assembles to `"A\n\nB"`, which is passed to the router. -/
theorem assembly_order_witness :
    assembled_content (fun _ => .error []) (some "A".data)
        (some ⟨some "b.txt".data, [(66 : Fin 256)]⟩) = .ok "A\n\nB".data
  ∧ query_endpoint (fun _ => .error []) route (some "A".data) none
        (some ⟨some "b.txt".data, [(66 : Fin 256)]⟩) none
      = .ok (route "A\n\nB".data none (some DEFAULT_RUBRIC)) := by
  obtain ⟨A, h1, h2, h3⟩ := assembly_order_and_separator (fun _ => .error []) route
      (some "A".data) none ⟨some "b.txt".data, [(66 : Fin 256)]⟩ (by decide)
  have hA : A = "A\n\nB".data := by
    rw [h2]
    decide
  rw [hA] at h1 h3
  exact ⟨h1, h3 (by decide)⟩

lemma resolve_rubric_error_head (pdfE : PdfExtract) (rf : Option UploadFile)
    (e : QueryError) (h : resolve_rubric pdfE rf = .error e) :
    e.detail.head? = some 'E' ∨ e.detail.head? = some 'U' := by
  cases rf with
  | none => simp [resolve_rubric] at h
  | some f =>
    simp only [resolve_rubric] at h
    by_cases hp : file_extension f.filename = "pdf".data
    · rw [if_pos hp] at h
      cases hpe : pdfE f.content with
      | ok t =>
        rw [hpe] at h
        simp at h
      | error s =>
        simp only [hpe, Except.error.injEq] at h
        subst h
        left
        rfl
    · rw [if_neg hp] at h
      by_cases ht : file_extension f.filename = "txt".data
      · rw [if_pos ht] at h
        simp at h
      · rw [if_neg ht] at h
        simp only [Except.error.injEq] at h
        subst h
        right
        rfl

/-- C6: whenever content collection succeeds (supported extensions, pdf
extraction not failing), the endpoint fails with the 400 validation detail
exactly when the assembled content is empty after trimming — and in that case
the outcome is the same for every router, i.e. the router is never consulted. -/
theorem validation_error_iff_empty (pdfExtract : PdfExtract) (r1 r2 : Router)
    (oti p : Option (List Char)) (sf rf : Option UploadFile) (c : List Char)
    (hc : assembled_content pdfExtract oti sf = .ok c) :
    (query_endpoint pdfExtract r1 oti p sf rf
        = .error ⟨400, "No script content provided. Please provide text_input or upload a script_file.".data⟩
      ↔ pyStrip c = [])
  ∧ (pyStrip c = [] →
      query_endpoint pdfExtract r1 oti p sf rf
        = query_endpoint pdfExtract r2 oti p sf rf) := by
  simp only [assembled_content] at hc
  cases hcp : content_parts pdfExtract oti sf with
  | error e =>
    rw [hcp] at hc
    simp at hc
  | ok parts =>
    rw [hcp] at hc
    simp only [Except.ok.injEq] at hc
    subst hc
    simp only [query_endpoint, hcp]
    by_cases hemp : pyStrip (List.intercalate "\n\n".data parts) = []
    · simp only [if_pos hemp]
      exact ⟨⟨fun _ => hemp, fun _ => trivial⟩, fun _ => trivial⟩
    · rw [if_neg hemp]
      refine ⟨⟨?_, fun h => absurd h hemp⟩, fun h => absurd h hemp⟩
      intro h
      exfalso
      cases hrr : resolve_rubric pdfExtract rf with
      | ok rt =>
        simp only [hrr] at h
        simp at h
      | error e2 =>
        simp only [hrr, Except.error.injEq] at h
        have hh := resolve_rubric_error_head pdfExtract rf e2 hrr
        rw [h] at hh
        rcases hh with h2 | h2 <;> exact absurd h2 (by decide)

/-- Witness for C6: neither `text_input` nor `script_file` provided — the
assembled content is empty and the endpoint returns the validation 400. -/
theorem validation_error_witness :
    assembled_content (fun _ => .error []) none none = .ok []
  ∧ query_endpoint (fun _ => .error []) route none none none none
      = .error ⟨400, "No script content provided. Please provide text_input or upload a script_file.".data⟩ := by
  refine ⟨rfl, ?_⟩
  exact ((validation_error_iff_empty (fun _ => .error []) route route none none
      none none [] rfl).1).mpr rfl

/-- C7 (amended): a `script_file` whose extension is neither txt nor pdf
always yields a 400 naming that extension; a `rubric_file` with such an
extension yields the 400 naming it provided the assembled script content is
non-empty after trimming (otherwise the empty-content validation 400 is
returned first). -/
theorem unsupported_extension_400 :
    (∀ (pdfExtract : PdfExtract) (router : Router) (oti p : Option (List Char))
        (f : UploadFile) (rf : Option UploadFile),
        file_extension f.filename ≠ "txt".data →
        file_extension f.filename ≠ "pdf".data →
        query_endpoint pdfExtract router oti p (some f) rf
          = .error ⟨400, "Unsupported file type: ".data ++ file_extension f.filename
              ++ ". Only PDF and TXT are supported.".data⟩)
  ∧ (∀ (pdfExtract : PdfExtract) (router : Router) (oti p : Option (List Char))
        (sf : Option UploadFile) (g : UploadFile) (c : List Char),
        assembled_content pdfExtract oti sf = .ok c →
        pyStrip c ≠ [] →
        file_extension g.filename ≠ "txt".data →
        file_extension g.filename ≠ "pdf".data →
        query_endpoint pdfExtract router oti p sf (some g)
          = .error ⟨400, "Unsupported rubric file type: ".data ++ file_extension g.filename
              ++ ". Only PDF and TXT are supported.".data⟩) := by
  constructor
  · intro pdfExtract router oti p f rf ht hp
    simp only [query_endpoint, content_parts]
    rw [if_neg hp, if_neg ht]
  · intro pdfExtract router oti p sf g c hc hne ht hp
    simp only [assembled_content] at hc
    cases hcp : content_parts pdfExtract oti sf with
    | error e =>
      rw [hcp] at hc
      simp at hc
    | ok parts =>
      rw [hcp] at hc
      simp only [Except.ok.injEq] at hc
      subst hc
      simp only [query_endpoint, hcp]
      rw [if_neg hne]
      simp only [resolve_rubric]
      rw [if_neg hp, if_neg ht]

/-- Witness for C7: a script file `x.docx` and (separately) a rubric file
`y.docx` with non-empty script content each produce the 400 naming docx. -/
theorem unsupported_extension_witness :
    query_endpoint (fun _ => .error []) route (some "A".data) none
        (some ⟨some "x.docx".data, []⟩) none
      = .error ⟨400, "Unsupported file type: ".data ++ file_extension (some "x.docx".data)
          ++ ". Only PDF and TXT are supported.".data⟩
  ∧ query_endpoint (fun _ => .error []) route (some "A".data) none none
        (some ⟨some "y.docx".data, []⟩)
      = .error ⟨400, "Unsupported rubric file type: ".data ++ file_extension (some "y.docx".data)
          ++ ". Only PDF and TXT are supported.".data⟩ :=
  ⟨unsupported_extension_400.1 (fun _ => .error []) route (some "A".data) none
      ⟨some "x.docx".data, []⟩ none (by decide) (by decide),
   unsupported_extension_400.2 (fun _ => .error []) route (some "A".data) none
      none ⟨some "y.docx".data, []⟩ "A".data rfl (by decide) (by decide) (by decide)⟩

/-- C7 counterexample: a rubric file `x.docx` uploaded with no script content
produces a 400 whose detail is the empty-content validation message, which
does not name the offending extension docx. -/
theorem rubric_docx_not_named_counterexample :
    query_endpoint (fun _ => .error []) route none none none
        (some ⟨some "x.docx".data, []⟩)
      = .error ⟨400, "No script content provided. Please provide text_input or upload a script_file.".data⟩
  ∧ isSubstr "docx".data
      "No script content provided. Please provide text_input or upload a script_file.".data = false :=
  ⟨rfl, by decide⟩
